import Mathlib

/-!
Shallow embedding of `src/src/components/project-details/VersionManagement.tsx`.

The component manages "video version" records for a project: it validates the
two draft URL fields, creates or updates a record through a generic persistence
call, approves versions, and renders a conditional approve action.  We embed the
event handlers (`handleSubmit`, `handleApprove`, `handleDelete`) as pure
functions from the component state and an environment (resolved auth user,
whether the persistence call succeeds, the current timestamp) to an explicit
record of the effects they perform: the toasts shown, the database calls issued,
the number of refresh-callback invocations, and the resulting local state.

The platform URL parser (`new URL(url)` throws on malformed input) is external
to the repository; `handleSubmit` therefore takes the parser as a boolean-valued
parameter `isValidUrl`, exactly the role the source's `isValidUrl` helper plays.
-/

namespace VersionManagement

/-- A version record as the component reads it (`versions` prop rows). -/
structure Version where
  id : String
  version_number : Int
  preview_url : Option String
  final_url : Option String
  is_approved : Bool
deriving Repr, DecidableEq

/-- The `formData` state: the two draft URL fields (empty string = blank). -/
structure FormData where
  preview_url : String
  final_url : String
deriving Repr, DecidableEq

/-- The component's local state: `dialogOpen`, `editingVersion`, `formData`. -/
structure ComponentState where
  dialogOpen : Bool
  editingVersion : Option Version
  formData : FormData
deriving Repr, DecidableEq

/-- A notification shown via the toast library. -/
inductive Toast where
  | success (msg : String)
  | error (msg : String)
deriving Repr, DecidableEq

/-- The operation kind of a `db.query` call. -/
inductive DbOp where
  | insert
  | update
  | delete
deriving Repr, DecidableEq

/-- The `data` payload of a `db.query` call.  The outer `Option` records
whether the field appears in the payload at all; for the URL fields the inner
`Option` distinguishes a JSON `null` (`none`) from a string value. -/
structure WritePayload where
  project_id : Option String
  version_number : Option Int
  preview_url : Option (Option String)
  final_url : Option (Option String)
  uploaded_by : Option String
  is_approved : Option Bool
  updated_at : Option String
deriving Repr, DecidableEq

/-- The payload with no fields present. -/
def WritePayload.empty : WritePayload :=
  { project_id := none, version_number := none, preview_url := none,
    final_url := none, uploaded_by := none, is_approved := none,
    updated_at := none }

/-- One `db.query` invocation: collection, operation, `where: { id }`, data. -/
structure DbCall where
  collection : String
  operation : DbOp
  whereId : Option String
  data : WritePayload
deriving Repr, DecidableEq

/-- Environment resolved during a submission: the auth provider's current user
(`supabase.auth.getUser`), whether the `db.query` call resolves (`dbOk`), and
the value of `new Date().toISOString()`. -/
structure SubmitEnv where
  user : Option String
  dbOk : Bool
  now : String
deriving Repr, DecidableEq

/-- Observable outcome of one `handleSubmit` run. -/
structure SubmitResult where
  toasts : List Toast
  dbCalls : List DbCall
  refreshCount : Nat
  state : ComponentState
deriving Repr, DecidableEq

/-- Observable outcome of `handleApprove` / `handleDelete` (no local state). -/
structure ActionResult where
  toasts : List Toast
  dbCalls : List DbCall
  refreshCount : Nat
deriving Repr, DecidableEq

/-- The source's next-version computation:
`versions.length > 0 ? Math.max(...versions.map(v => v.version_number)) + 1 : 1`. -/
def nextVersionNumber (versions : List Version) : Int :=
  if versions.length > 0 then
    (match versions.map Version.version_number with
      | [] => 0
      | n :: ns => ns.foldl max n) + 1
  else 1

/-- JS truthiness-based normalization `formData.x || null`: a blank draft field
is written as `null`, a non-blank one as itself. -/
def normalizeField (s : String) : Option String :=
  if s = "" then none else some s

/-- `handleSubmit`: validate the two draft fields, resolve the auth user, then
either update the record named by `editingVersion.id` or insert a new record,
and on success reset the dialog state and invoke the refresh callback. -/
def handleSubmit (isValidUrl : String → Bool) (projectId : String)
    (versions : List Version) (st : ComponentState) (env : SubmitEnv) :
    SubmitResult :=
  if st.formData.preview_url ≠ "" ∧ isValidUrl st.formData.preview_url = false then
    { toasts := [Toast.error "Please enter a valid preview URL"],
      dbCalls := [], refreshCount := 0, state := st }
  else if st.formData.final_url ≠ "" ∧ isValidUrl st.formData.final_url = false then
    { toasts := [Toast.error "Please enter a valid final URL"],
      dbCalls := [], refreshCount := 0, state := st }
  else
    match env.user with
    | none => { toasts := [], dbCalls := [], refreshCount := 0, state := st }
    | some userId =>
      let call : DbCall :=
        match st.editingVersion with
        | some ev =>
          { collection := "video_versions", operation := DbOp.update,
            whereId := some ev.id,
            data := { WritePayload.empty with
              preview_url := some (normalizeField st.formData.preview_url),
              final_url := some (normalizeField st.formData.final_url),
              updated_at := some env.now } }
        | none =>
          { collection := "video_versions", operation := DbOp.insert,
            whereId := none,
            data := { WritePayload.empty with
              project_id := some projectId,
              version_number := some (nextVersionNumber versions),
              preview_url := some (normalizeField st.formData.preview_url),
              final_url := some (normalizeField st.formData.final_url),
              uploaded_by := some userId,
              is_approved := some false } }
      let successMsg : String :=
        match st.editingVersion with
        | some _ => "Version updated successfully"
        | none => "New version created successfully"
      if env.dbOk then
        { toasts := [Toast.success successMsg],
          dbCalls := [call], refreshCount := 1,
          state := { dialogOpen := false, editingVersion := none,
                     formData := { preview_url := "", final_url := "" } } }
      else
        { toasts := [Toast.error "Failed to save version"],
          dbCalls := [call], refreshCount := 0, state := st }

/-- `handleApprove`: `db.query` update setting `is_approved: true` for the id;
success toast and refresh on resolve, error toast on throw. -/
def handleApprove (versionId : String) (dbOk : Bool) : ActionResult :=
  let call : DbCall :=
    { collection := "video_versions", operation := DbOp.update,
      whereId := some versionId,
      data := { WritePayload.empty with is_approved := some true } }
  if dbOk then
    { toasts := [Toast.success "Version approved successfully"],
      dbCalls := [call], refreshCount := 1 }
  else
    { toasts := [Toast.error "Failed to approve version"],
      dbCalls := [call], refreshCount := 0 }

/-- `handleDelete`: `db.query` delete by id; success toast and refresh on
resolve, error toast on throw. -/
def handleDelete (versionId : String) (dbOk : Bool) : ActionResult :=
  let call : DbCall :=
    { collection := "video_versions", operation := DbOp.delete,
      whereId := some versionId, data := WritePayload.empty }
  if dbOk then
    { toasts := [Toast.success "Version deleted successfully"],
      dbCalls := [call], refreshCount := 1 }
  else
    { toasts := [Toast.error "Failed to delete version"],
      dbCalls := [call], refreshCount := 0 }

/-- The render guard on the approve button for a row:
`!version.is_approved && userRole === 'client'`. -/
def approveActionRendered (version : Version) (userRole : Option String) : Bool :=
  !version.is_approved && userRole == some "client"

/-- `handleEdit`: seed the draft from the row and open the dialog. -/
def handleEdit (version : Version) (_st : ComponentState) : ComponentState :=
  { dialogOpen := true, editingVersion := some version,
    formData := { preview_url := version.preview_url.getD "",
                  final_url := version.final_url.getD "" } }

/-- `handleDialogClose`: on any transition to closed, clear the edit target
and the draft. -/
def handleDialogClose (open' : Bool) (st : ComponentState) : ComponentState :=
  if open' then { st with dialogOpen := true }
  else { dialogOpen := false, editingVersion := none,
         formData := { preview_url := "", final_url := "" } }

/-! ## Helper lemmas -/

/-- Folding `max` from a seed computes the maximum of seed and list. -/
theorem foldl_max_cons_eq (ns : List Int) :
    ∀ n m : Int, ns.foldl max (max n m) = max n (ns.foldl max m) := by
  induction ns with
  | nil => intro n m; rfl
  | cons k ks ih =>
    intro n m
    show ks.foldl max (max (max n m) k) = max n (ks.foldl max (max m k))
    rw [max_assoc, ih]

/-- `foldl max` over `n :: ns` is `List.maximum` of `n :: ns`. -/
theorem foldl_max_eq_maximum (ns : List Int) :
    ∀ n : Int, ((n :: ns).maximum : WithBot Int) = some (ns.foldl max n) := by
  induction ns with
  | nil => intro n; rw [List.maximum_singleton]; rfl
  | cons k ks ih =>
    intro n
    rw [List.maximum_cons, ih k]
    show max (n : WithBot Int) (some (ks.foldl max k)) = some (ks.foldl max (max n k))
    rw [foldl_max_cons_eq ks n k]
    rfl

/-! ## Claims -/

/-- C1: the create path computes the new record's version number as one more
than the maximum `version_number` in the supplied list when the list is
non-empty, and as 1 when the list is empty. -/
theorem next_version_is_max_plus_one (versions : List Version) :
    nextVersionNumber versions =
      match (versions.map Version.version_number).maximum with
      | none => 1
      | some m => m + 1 := by
  cases versions with
  | nil => rfl
  | cons v vs =>
    have h := foldl_max_eq_maximum (vs.map Version.version_number) v.version_number
    simp only [nextVersionNumber, List.map_cons]
    rw [h]
    simp

/-- C2: if either draft field is non-empty and fails URL parsing, the submit
aborts with no persistence call, no refresh, unchanged state, and the error
toast for the offending field (preview if it offends, otherwise final). -/
theorem invalid_url_blocks_submit (isValidUrl : String → Bool) (projectId : String)
    (versions : List Version) (st : ComponentState) (env : SubmitEnv)
    (h : (st.formData.preview_url ≠ "" ∧ isValidUrl st.formData.preview_url = false) ∨
         (st.formData.final_url ≠ "" ∧ isValidUrl st.formData.final_url = false)) :
    (handleSubmit isValidUrl projectId versions st env).dbCalls = [] ∧
    (handleSubmit isValidUrl projectId versions st env).refreshCount = 0 ∧
    (handleSubmit isValidUrl projectId versions st env).state = st ∧
    (handleSubmit isValidUrl projectId versions st env).toasts =
      [Toast.error
        (if st.formData.preview_url ≠ "" ∧ isValidUrl st.formData.preview_url = false
         then "Please enter a valid preview URL"
         else "Please enter a valid final URL")] := by
  by_cases h1 : st.formData.preview_url ≠ "" ∧ isValidUrl st.formData.preview_url = false
  · simp [handleSubmit, h1]
  · have h2 := h.resolve_left h1
    simp [handleSubmit, h1, h2]

/-- Witness for C2 at a concrete invalid final URL. -/
theorem invalid_url_blocks_submit_witness :
    (handleSubmit (fun _ => false) "p1" []
        { dialogOpen := true, editingVersion := none,
          formData := { preview_url := "", final_url := "bad url" } }
        { user := some "u1", dbOk := true, now := "t1" }).dbCalls = [] ∧
    (handleSubmit (fun _ => false) "p1" []
        { dialogOpen := true, editingVersion := none,
          formData := { preview_url := "", final_url := "bad url" } }
        { user := some "u1", dbOk := true, now := "t1" }).refreshCount = 0 ∧
    (handleSubmit (fun _ => false) "p1" []
        { dialogOpen := true, editingVersion := none,
          formData := { preview_url := "", final_url := "bad url" } }
        { user := some "u1", dbOk := true, now := "t1" }).state =
      { dialogOpen := true, editingVersion := none,
        formData := { preview_url := "", final_url := "bad url" } } ∧
    (handleSubmit (fun _ => false) "p1" []
        { dialogOpen := true, editingVersion := none,
          formData := { preview_url := "", final_url := "bad url" } }
        { user := some "u1", dbOk := true, now := "t1" }).toasts =
      [Toast.error
        (if ("" : String) ≠ "" ∧ (fun _ => false) ("" : String) = false
         then "Please enter a valid preview URL"
         else "Please enter a valid final URL")] :=
  invalid_url_blocks_submit (fun _ => false) "p1" [] _ _
    (Or.inr ⟨by decide, rfl⟩)

/-- C3: if a draft field is the empty string (and the submission otherwise
passes validation with a resolved user), the persistence call is issued and the
payload stores `null` for that field, never the empty string. -/
theorem empty_field_stored_absent (isValidUrl : String → Bool) (projectId : String)
    (versions : List Version) (st : ComponentState) (env : SubmitEnv) (uid : String)
    (hpv : st.formData.preview_url = "" ∨ isValidUrl st.formData.preview_url = true)
    (hfv : st.formData.final_url = "" ∨ isValidUrl st.formData.final_url = true)
    (huser : env.user = some uid) :
    ∃ c : DbCall, (handleSubmit isValidUrl projectId versions st env).dbCalls = [c] ∧
      (st.formData.preview_url = "" → c.data.preview_url = some none) ∧
      (st.formData.final_url = "" → c.data.final_url = some none) := by
  have h1 : ¬(st.formData.preview_url ≠ "" ∧ isValidUrl st.formData.preview_url = false) := by
    rcases hpv with h | h <;> simp [h]
  have h2 : ¬(st.formData.final_url ≠ "" ∧ isValidUrl st.formData.final_url = false) := by
    rcases hfv with h | h <;> simp [h]
  cases he : st.editingVersion <;> cases hdb : env.dbOk <;>
    simp [handleSubmit, h1, h2, huser, he, hdb, normalizeField]

/-- Witness for C3 with both fields blank on the create path. -/
theorem empty_field_stored_absent_witness :
    ∃ c : DbCall,
      (handleSubmit (fun _ => true) "p1" []
        { dialogOpen := true, editingVersion := none,
          formData := { preview_url := "", final_url := "" } }
        { user := some "u1", dbOk := true, now := "t1" }).dbCalls = [c] ∧
      (("" : String) = "" → c.data.preview_url = some none) ∧
      (("" : String) = "" → c.data.final_url = some none) :=
  empty_field_stored_absent (fun _ => true) "p1" [] _ _ "u1"
    (Or.inl rfl) (Or.inl rfl) rfl

/-- C4: with a draft that passes validation but no resolved user, the submit
returns silently: no persistence call, no toast, no refresh, state unchanged. -/
theorem no_user_silently_aborts (isValidUrl : String → Bool) (projectId : String)
    (versions : List Version) (st : ComponentState) (env : SubmitEnv)
    (hpv : st.formData.preview_url = "" ∨ isValidUrl st.formData.preview_url = true)
    (hfv : st.formData.final_url = "" ∨ isValidUrl st.formData.final_url = true)
    (huser : env.user = none) :
    (handleSubmit isValidUrl projectId versions st env).dbCalls = [] ∧
    (handleSubmit isValidUrl projectId versions st env).toasts = [] ∧
    (handleSubmit isValidUrl projectId versions st env).refreshCount = 0 ∧
    (handleSubmit isValidUrl projectId versions st env).state = st := by
  have h1 : ¬(st.formData.preview_url ≠ "" ∧ isValidUrl st.formData.preview_url = false) := by
    rcases hpv with h | h <;> simp [h]
  have h2 : ¬(st.formData.final_url ≠ "" ∧ isValidUrl st.formData.final_url = false) := by
    rcases hfv with h | h <;> simp [h]
  simp [handleSubmit, h1, h2, huser]

/-- Witness for C4 with a valid draft and an unresolved user. -/
theorem no_user_silently_aborts_witness :
    (handleSubmit (fun _ => true) "p1" []
        { dialogOpen := true, editingVersion := none,
          formData := { preview_url := "https://a", final_url := "" } }
        { user := none, dbOk := true, now := "t1" }).dbCalls = [] ∧
    (handleSubmit (fun _ => true) "p1" []
        { dialogOpen := true, editingVersion := none,
          formData := { preview_url := "https://a", final_url := "" } }
        { user := none, dbOk := true, now := "t1" }).toasts = [] ∧
    (handleSubmit (fun _ => true) "p1" []
        { dialogOpen := true, editingVersion := none,
          formData := { preview_url := "https://a", final_url := "" } }
        { user := none, dbOk := true, now := "t1" }).refreshCount = 0 ∧
    (handleSubmit (fun _ => true) "p1" []
        { dialogOpen := true, editingVersion := none,
          formData := { preview_url := "https://a", final_url := "" } }
        { user := none, dbOk := true, now := "t1" }).state =
      { dialogOpen := true, editingVersion := none,
        formData := { preview_url := "https://a", final_url := "" } } :=
  no_user_silently_aborts (fun _ => true) "p1" [] _ _
    (Or.inr rfl) (Or.inl rfl) rfl

/-- C5: after a successful create or update, the dialog is closed, both draft
fields are empty, `editingVersion` is cleared, the refresh callback runs once,
and the success toast distinguishes "updated" from "created". -/
theorem success_resets_dialog (isValidUrl : String → Bool) (projectId : String)
    (versions : List Version) (st : ComponentState) (env : SubmitEnv) (uid : String)
    (hpv : st.formData.preview_url = "" ∨ isValidUrl st.formData.preview_url = true)
    (hfv : st.formData.final_url = "" ∨ isValidUrl st.formData.final_url = true)
    (huser : env.user = some uid) (hdb : env.dbOk = true) :
    (handleSubmit isValidUrl projectId versions st env).state =
      { dialogOpen := false, editingVersion := none,
        formData := { preview_url := "", final_url := "" } } ∧
    (handleSubmit isValidUrl projectId versions st env).refreshCount = 1 ∧
    (handleSubmit isValidUrl projectId versions st env).toasts =
      [Toast.success
        (match st.editingVersion with
         | some _ => "Version updated successfully"
         | none => "New version created successfully")] := by
  have h1 : ¬(st.formData.preview_url ≠ "" ∧ isValidUrl st.formData.preview_url = false) := by
    rcases hpv with h | h <;> simp [h]
  have h2 : ¬(st.formData.final_url ≠ "" ∧ isValidUrl st.formData.final_url = false) := by
    rcases hfv with h | h <;> simp [h]
  cases he : st.editingVersion <;> simp [handleSubmit, h1, h2, huser, hdb, he]

/-- Witness for C5 on a successful create. -/
theorem success_resets_dialog_witness :
    (handleSubmit (fun _ => true) "p1" []
        { dialogOpen := true, editingVersion := none,
          formData := { preview_url := "https://a", final_url := "" } }
        { user := some "u1", dbOk := true, now := "t1" }).state =
      { dialogOpen := false, editingVersion := none,
        formData := { preview_url := "", final_url := "" } } ∧
    (handleSubmit (fun _ => true) "p1" []
        { dialogOpen := true, editingVersion := none,
          formData := { preview_url := "https://a", final_url := "" } }
        { user := some "u1", dbOk := true, now := "t1" }).refreshCount = 1 ∧
    (handleSubmit (fun _ => true) "p1" []
        { dialogOpen := true, editingVersion := none,
          formData := { preview_url := "https://a", final_url := "" } }
        { user := some "u1", dbOk := true, now := "t1" }).toasts =
      [Toast.success "New version created successfully"] :=
  success_resets_dialog (fun _ => true) "p1" [] _ _ "u1"
    (Or.inr rfl) (Or.inl rfl) rfl rfl

/-- C6: after a failed persistence call, the generic failure toast is shown,
the local state (dialog, draft, edit target) is exactly as before submission,
and the refresh callback is not invoked. -/
theorem failure_keeps_state (isValidUrl : String → Bool) (projectId : String)
    (versions : List Version) (st : ComponentState) (env : SubmitEnv) (uid : String)
    (hpv : st.formData.preview_url = "" ∨ isValidUrl st.formData.preview_url = true)
    (hfv : st.formData.final_url = "" ∨ isValidUrl st.formData.final_url = true)
    (huser : env.user = some uid) (hdb : env.dbOk = false) :
    (handleSubmit isValidUrl projectId versions st env).toasts =
      [Toast.error "Failed to save version"] ∧
    (handleSubmit isValidUrl projectId versions st env).state = st ∧
    (handleSubmit isValidUrl projectId versions st env).refreshCount = 0 := by
  have h1 : ¬(st.formData.preview_url ≠ "" ∧ isValidUrl st.formData.preview_url = false) := by
    rcases hpv with h | h <;> simp [h]
  have h2 : ¬(st.formData.final_url ≠ "" ∧ isValidUrl st.formData.final_url = false) := by
    rcases hfv with h | h <;> simp [h]
  cases he : st.editingVersion <;> simp [handleSubmit, h1, h2, huser, hdb, he]

/-- Witness for C6 on a failed create. -/
theorem failure_keeps_state_witness :
    (handleSubmit (fun _ => true) "p1" []
        { dialogOpen := true, editingVersion := none,
          formData := { preview_url := "https://a", final_url := "" } }
        { user := some "u1", dbOk := false, now := "t1" }).toasts =
      [Toast.error "Failed to save version"] ∧
    (handleSubmit (fun _ => true) "p1" []
        { dialogOpen := true, editingVersion := none,
          formData := { preview_url := "https://a", final_url := "" } }
        { user := some "u1", dbOk := false, now := "t1" }).state =
      { dialogOpen := true, editingVersion := none,
        formData := { preview_url := "https://a", final_url := "" } } ∧
    (handleSubmit (fun _ => true) "p1" []
        { dialogOpen := true, editingVersion := none,
          formData := { preview_url := "https://a", final_url := "" } }
        { user := some "u1", dbOk := false, now := "t1" }).refreshCount = 0 :=
  failure_keeps_state (fun _ => true) "p1" [] _ _ "u1"
    (Or.inr rfl) (Or.inl rfl) rfl rfl

/-- C7 counterexample: the approve operation issues an update whose payload
sets only `is_approved` and contains no `updated_at` field, so not every
update issued by this component refreshes the timestamp. -/
theorem approve_update_omits_updated_at :
    ∃ c : DbCall, (handleApprove "v1" true).dbCalls = [c] ∧
      c.operation = DbOp.update ∧ c.data.is_approved = some true ∧
      c.data.updated_at = none :=
  ⟨_, rfl, rfl, rfl, rfl⟩

/-- C7 amended: every update issued by the submit (edit) path writes a
refreshed `updated_at`, but the approve update writes only `is_approved`
and never an `updated_at`. -/
theorem submit_update_refreshes_updated_at (isValidUrl : String → Bool)
    (projectId : String) (versions : List Version) (st : ComponentState)
    (env : SubmitEnv) (ev : Version) (uid : String)
    (he : st.editingVersion = some ev)
    (hpv : st.formData.preview_url = "" ∨ isValidUrl st.formData.preview_url = true)
    (hfv : st.formData.final_url = "" ∨ isValidUrl st.formData.final_url = true)
    (huser : env.user = some uid) :
    (∀ c ∈ (handleSubmit isValidUrl projectId versions st env).dbCalls,
      c.operation = DbOp.update ∧ c.data.updated_at = some env.now) ∧
    (∀ (vid : String) (dbOk : Bool),
      ∀ c ∈ (handleApprove vid dbOk).dbCalls, c.data.updated_at = none) := by
  have h1 : ¬(st.formData.preview_url ≠ "" ∧ isValidUrl st.formData.preview_url = false) := by
    rcases hpv with h | h <;> simp [h]
  have h2 : ¬(st.formData.final_url ≠ "" ∧ isValidUrl st.formData.final_url = false) := by
    rcases hfv with h | h <;> simp [h]
  constructor
  · cases hdb : env.dbOk <;> simp [handleSubmit, h1, h2, huser, he, hdb]
  · intro vid dbOk
    cases dbOk <;> simp [handleApprove, WritePayload.empty]

/-- Witness for the amended C7 on a concrete edit submission. -/
theorem submit_update_refreshes_updated_at_witness :
    (∀ c ∈ (handleSubmit (fun _ => true) "p1" []
        { dialogOpen := true,
          editingVersion := some
            { id := "v1", version_number := 1, preview_url := none,
              final_url := none, is_approved := false },
          formData := { preview_url := "https://a", final_url := "" } }
        { user := some "u1", dbOk := true, now := "t1" }).dbCalls,
      c.operation = DbOp.update ∧ c.data.updated_at = some "t1") ∧
    (∀ (vid : String) (dbOk : Bool),
      ∀ c ∈ (handleApprove vid dbOk).dbCalls, c.data.updated_at = none) :=
  submit_update_refreshes_updated_at (fun _ => true) "p1" [] _ _
    { id := "v1", version_number := 1, preview_url := none,
      final_url := none, is_approved := false }
    "u1" rfl (Or.inr rfl) (Or.inl rfl) rfl

/-- C8: every call issued by the submit: on the edit path it is an update on
the record named by `editingVersion.id` whose payload holds only the two
(normalized) URL fields and `updated_at` — approval state, project, number and
uploader are untouched; on the create path it is an insert carrying
`is_approved = false`, `uploaded_by` = current user id, the computed
`version_number` and the normalized URL fields, with no `updated_at`. -/
theorem submit_write_shape (isValidUrl : String → Bool) (projectId : String)
    (versions : List Version) (st : ComponentState) (env : SubmitEnv) (uid : String)
    (hpv : st.formData.preview_url = "" ∨ isValidUrl st.formData.preview_url = true)
    (hfv : st.formData.final_url = "" ∨ isValidUrl st.formData.final_url = true)
    (huser : env.user = some uid) :
    ∀ c ∈ (handleSubmit isValidUrl projectId versions st env).dbCalls,
      (∀ ev : Version, st.editingVersion = some ev →
        c.operation = DbOp.update ∧ c.whereId = some ev.id ∧
        c.data.preview_url = some (normalizeField st.formData.preview_url) ∧
        c.data.final_url = some (normalizeField st.formData.final_url) ∧
        c.data.updated_at = some env.now ∧
        c.data.is_approved = none ∧ c.data.project_id = none ∧
        c.data.version_number = none ∧ c.data.uploaded_by = none) ∧
      (st.editingVersion = none →
        c.operation = DbOp.insert ∧ c.whereId = none ∧
        c.data.is_approved = some false ∧ c.data.uploaded_by = some uid ∧
        c.data.project_id = some projectId ∧
        c.data.version_number = some (nextVersionNumber versions) ∧
        c.data.preview_url = some (normalizeField st.formData.preview_url) ∧
        c.data.final_url = some (normalizeField st.formData.final_url) ∧
        c.data.updated_at = none) := by
  have h1 : ¬(st.formData.preview_url ≠ "" ∧ isValidUrl st.formData.preview_url = false) := by
    rcases hpv with h | h <;> simp [h]
  have h2 : ¬(st.formData.final_url ≠ "" ∧ isValidUrl st.formData.final_url = false) := by
    rcases hfv with h | h <;> simp [h]
  cases he : st.editingVersion <;> cases hdb : env.dbOk <;>
    simp [handleSubmit, h1, h2, huser, he, hdb, WritePayload.empty]

/-- Witness for C8 on a concrete create submission. -/
theorem submit_write_shape_witness :
    (handleSubmit (fun _ => true) "p1" []
        { dialogOpen := true, editingVersion := none,
          formData := { preview_url := "https://a", final_url := "" } }
        { user := some "u1", dbOk := true, now := "t1" }).dbCalls.length = 1 ∧
    ∀ c ∈ (handleSubmit (fun _ => true) "p1" []
        { dialogOpen := true, editingVersion := none,
          formData := { preview_url := "https://a", final_url := "" } }
        { user := some "u1", dbOk := true, now := "t1" }).dbCalls,
      (∀ ev : Version, (none : Option Version) = some ev →
        c.operation = DbOp.update ∧ c.whereId = some ev.id ∧
        c.data.preview_url = some (normalizeField "https://a") ∧
        c.data.final_url = some (normalizeField "") ∧
        c.data.updated_at = some "t1" ∧
        c.data.is_approved = none ∧ c.data.project_id = none ∧
        c.data.version_number = none ∧ c.data.uploaded_by = none) ∧
      ((none : Option Version) = none →
        c.operation = DbOp.insert ∧ c.whereId = none ∧
        c.data.is_approved = some false ∧ c.data.uploaded_by = some "u1" ∧
        c.data.project_id = some "p1" ∧
        c.data.version_number = some (nextVersionNumber []) ∧
        c.data.preview_url = some (normalizeField "https://a") ∧
        c.data.final_url = some (normalizeField "") ∧
        c.data.updated_at = none) :=
  ⟨rfl,
    submit_write_shape (fun _ => true) "p1" [] _ _ "u1"
      (Or.inr rfl) (Or.inl rfl) rfl⟩

/-- C9: the approve action is rendered for a row exactly when the version is
not yet approved and the acting user's role is the privileged client role. -/
theorem approve_rendered_iff (v : Version) (role : Option String) :
    approveActionRendered v role = true ↔
      v.is_approved = false ∧ role = some "client" := by
  simp [approveActionRendered]

/-- C10: when both draft fields are non-empty and both fail URL parsing, only
the preview-URL error toast is surfaced (one toast total) and no persistence
call is made: the preview field is checked first and short-circuits. -/
theorem preview_url_checked_first (isValidUrl : String → Bool) (projectId : String)
    (versions : List Version) (st : ComponentState) (env : SubmitEnv)
    (hp : st.formData.preview_url ≠ "")
    (hpf : isValidUrl st.formData.preview_url = false)
    (hf : st.formData.final_url ≠ "")
    (hff : isValidUrl st.formData.final_url = false) :
    (handleSubmit isValidUrl projectId versions st env).toasts =
      [Toast.error "Please enter a valid preview URL"] ∧
    (handleSubmit isValidUrl projectId versions st env).toasts.length = 1 ∧
    (handleSubmit isValidUrl projectId versions st env).dbCalls = [] := by
  have hused : st.formData.final_url ≠ "" ∧ isValidUrl st.formData.final_url = false :=
    ⟨hf, hff⟩
  simp [handleSubmit, hp, hpf]

/-- Witness for C10 with both fields concrete and invalid. -/
theorem preview_url_checked_first_witness :
    (handleSubmit (fun _ => false) "p1" []
        { dialogOpen := true, editingVersion := none,
          formData := { preview_url := "bad one", final_url := "bad two" } }
        { user := some "u1", dbOk := true, now := "t1" }).toasts =
      [Toast.error "Please enter a valid preview URL"] ∧
    (handleSubmit (fun _ => false) "p1" []
        { dialogOpen := true, editingVersion := none,
          formData := { preview_url := "bad one", final_url := "bad two" } }
        { user := some "u1", dbOk := true, now := "t1" }).toasts.length = 1 ∧
    (handleSubmit (fun _ => false) "p1" []
        { dialogOpen := true, editingVersion := none,
          formData := { preview_url := "bad one", final_url := "bad two" } }
        { user := some "u1", dbOk := true, now := "t1" }).dbCalls = [] :=
  preview_url_checked_first (fun _ => false) "p1" [] _ _
    (by decide) rfl (by decide) rfl

end VersionManagement
